import Mathlib

set_option maxRecDepth 100000

/-!
Verification of the clutchctl foot-pedal configuration tool.

This file shallowly embeds the Rust sources of the repository:
  * `clutchctl-core/src/protocol/hid_keymap.rs` (key name <-> scan code table),
  * `clutchctl-core/src/protocol/packets.rs` (wire packet layout, command frames),
  * `clutchctl-core/src/protocol/ikkegol.rs` (configuration codec),
  * `clutchctl-core/src/configuration/*` (the logical configuration model),
  * `clutchctl-core/src/device/{traits,ikkegol,pcsensor}.rs` (driver state machines),
  * `clutchctl-cli/src/commands/set.rs` (text input validation).

Machine-integer conventions: Rust `u8` values are modelled as `Nat` with explicit
`% 256` where wrap-around can occur, `i8` values as `Int` obtained from a byte by
two's-complement reinterpretation.  Rust `HashMap`/association behaviour is modelled
by prepend-insert association lists whose lookup returns the most recent insertion,
matching `HashMap::insert` replacement semantics.  Rust `String` is modelled as
Lean `String`; `str::to_lowercase` is modelled on the ASCII range (every string in
the keymap table and every string these theorems touch is ASCII, where the two
coincide).  Device I/O (USB/HID reads and writes) is abstracted as oracle
parameters; everything else is translated from the source.
-/

/-! ## Keymap table (`protocol/hid_keymap.rs`, `KEYMAP_TABLE`) -/

/-- Models `KEYMAP_TABLE` from `hid_keymap.rs`: the static list of
(key name, scan code) pairs, in source order. -/
def KEYMAP_TABLE : List (String × Nat) := [
  ("<00>", 0x00), ("<01>", 0x01), ("<02>", 0x02), ("<03>", 0x03),
  ("a", 0x04), ("b", 0x05), ("c", 0x06), ("d", 0x07), ("e", 0x08), ("f", 0x09),
  ("g", 0x0a), ("h", 0x0b), ("i", 0x0c), ("j", 0x0d), ("k", 0x0e), ("l", 0x0f),
  ("m", 0x10), ("n", 0x11), ("o", 0x12), ("p", 0x13), ("q", 0x14), ("r", 0x15),
  ("s", 0x16), ("t", 0x17), ("u", 0x18), ("v", 0x19), ("w", 0x1a), ("x", 0x1b),
  ("y", 0x1c), ("z", 0x1d),
  ("1", 0x1e), ("2", 0x1f), ("3", 0x20), ("4", 0x21), ("5", 0x22),
  ("6", 0x23), ("7", 0x24), ("8", 0x25), ("9", 0x26), ("0", 0x27),
  ("enter", 0x28), ("return", 0x28), ("esc", 0x29), ("escape", 0x29),
  ("backspace", 0x2a), ("tab", 0x2b), (" ", 0x2c), ("space", 0x2c),
  ("-", 0x2d), ("=", 0x2e), ("[", 0x2f), ("]", 0x30), ("\\", 0x31),
  (";", 0x33), ("\x27", 0x34), ("\x60", 0x35), (",", 0x36), (".", 0x37), ("/", 0x38),
  ("capslock", 0x39),
  ("f1", 0x3a), ("f2", 0x3b), ("f3", 0x3c), ("f4", 0x3d), ("f5", 0x3e),
  ("f6", 0x3f), ("f7", 0x40), ("f8", 0x41), ("f9", 0x42), ("f10", 0x43),
  ("f11", 0x44), ("f12", 0x45),
  ("printscreen", 0x46), ("scrolllock", 0x47), ("pause", 0x48), ("insert", 0x49),
  ("home", 0x4a), ("pageup", 0x4b), ("prior", 0x4b), ("delete", 0x4c),
  ("end", 0x4d), ("pagedown", 0x4e), ("next", 0x4e),
  ("right", 0x4f), ("left", 0x50), ("down", 0x51), ("up", 0x52),
  ("numlock", 0x53), ("kp_divide", 0x54), ("kp_multiply", 0x55),
  ("kp_subtract", 0x56), ("kp_add", 0x57), ("kp_enter", 0x58), ("kp_end", 0x59),
  ("kp_down", 0x5a), ("kp_next", 0x5b), ("kp_left", 0x5c), ("kp_begin", 0x5d),
  ("kp_right", 0x5e), ("kp_home", 0x5f), ("kp_up", 0x60), ("kp_prior", 0x61),
  ("kp_insert", 0x62), ("kp_delete", 0x63),
  ("less", 0x64), ("multi_key", 0x65), ("compose", 0x65),
  ("f13", 0x68), ("f14", 0x69), ("f15", 0x6a), ("f16", 0x6b), ("f17", 0x6c),
  ("f18", 0x6d), ("f19", 0x6e), ("f20", 0x6f), ("f21", 0x70), ("f22", 0x71),
  ("f23", 0x72), ("f24", 0x73),
  ("xf86audiomute", 0x7f), ("xf86audioraisevolume", 0x80),
  ("xf86audiolowervolume", 0x81),
  ("A", 0x84), ("B", 0x85), ("C", 0x86), ("D", 0x87), ("E", 0x88), ("F", 0x89),
  ("G", 0x8a), ("H", 0x8b), ("I", 0x8c), ("J", 0x8d), ("K", 0x8e), ("L", 0x8f),
  ("M", 0x90), ("N", 0x91), ("O", 0x92), ("P", 0x93), ("Q", 0x94), ("R", 0x95),
  ("S", 0x96), ("T", 0x97), ("U", 0x98), ("V", 0x99), ("W", 0x9a), ("X", 0x9b),
  ("Y", 0x9c), ("Z", 0x9d),
  ("!", 0x9e), ("@", 0x9f), ("#", 0xa0), ("$", 0xa1), ("%", 0xa2), ("^", 0xa3),
  ("&", 0xa4), ("*", 0xa5), ("(", 0xa6), (")", 0xa7),
  ("_", 0xad), ("+", 0xae), ("\x7b", 0xaf), ("\x7d", 0xb0), ("|", 0xb1),
  (":", 0xb3), ("\"", 0xb4), ("~", 0xb5), ("<", 0xb6), (">", 0xb7), ("?", 0xb8),
  ("control_l", 0xe0), ("ctrl_l", 0xe0), ("lctrl", 0xe0),
  ("shift_l", 0xe1), ("lshift", 0xe1),
  ("alt_l", 0xe2), ("lalt", 0xe2),
  ("super_l", 0xe3), ("lsuper", 0xe3), ("lwin", 0xe3), ("lcmd", 0xe3),
  ("control_r", 0xe4), ("ctrl_r", 0xe4), ("rctrl", 0xe4),
  ("shift_r", 0xe5), ("rshift", 0xe5),
  ("meta_r", 0xe6), ("alt_r", 0xe6), ("ralt", 0xe6),
  ("super_r", 0xe7), ("rsuper", 0xe7), ("rwin", 0xe7), ("rcmd", 0xe7),
  ("xf86audiopause", 0xe8), ("xf86eject", 0xe9), ("xf86audioprev", 0xea),
  ("xf86audionext", 0xeb), ("xf86www", 0xf0), ("xf86back", 0xf1),
  ("xf86forward", 0xf2), ("xf86sleep", 0xf8), ("xf86screensaver", 0xf9),
  ("xf86reload", 0xfa), ("xf86calculator", 0xfb)]

/-- Models Rust char lowercasing restricted to ASCII (`char::to_lowercase` /
`str::to_lowercase` agree with this on every ASCII string; all keymap names and
all inputs in this development are ASCII). -/
def lowerChar (c : Char) : Char :=
  if 65 ≤ c.toNat ∧ c.toNat ≤ 90 then Char.ofNat (c.toNat + 32) else c

/-- Models `str::to_lowercase` on ASCII strings. -/
def lowerStr (s : String) : String := ⟨s.data.map lowerChar⟩

/-- Association-list insert modelling `HashMap::insert`: a later insert shadows an
earlier one (lookup scans from the front, and insert prepends). -/
def mapInsert {α β : Type} (m : List (α × β)) (k : α) (v : β) : List (α × β) :=
  (k, v) :: m

/-- Association-list lookup modelling `HashMap::get`: first (most recent) match. -/
def mapLookup {α β : Type} [BEq α] (m : List (α × β)) (k : α) : Option β :=
  match m with
  | [] => none
  | (k2, v) :: rest => if k2 == k then some v else mapLookup rest k

/-- Models the `is_single_letter` test in `HidKeymap::new`:
`name.len() == 1 && name.chars().next().unwrap().is_alphabetic()`
(every table name is ASCII, where byte length equals char count). -/
def isSingleLetter (name : String) : Bool :=
  match name.data with
  | [c] => c.isAlpha
  | _ => false

/-- Models `name.starts_with('<')` by inspecting the first character. -/
def startsWithLT (s : String) : Bool :=
  match s.data with
  | c :: _ => c == '<'
  | [] => false

/-- One step of the `HidKeymap::new` construction loop: given the pair of maps
accumulated so far and the next `(name, code)` table entry, perform the inserts
done by the loop body in `hid_keymap.rs` lines 266-292. -/
def keymapStep (maps : List (String × Nat) × List (Nat × String))
    (entry : String × Nat) : List (String × Nat) × List (Nat × String) :=
  let n2c := maps.1
  let c2n := maps.2
  let name := entry.1
  let code := entry.2
  let n2c :=
    if ¬ isSingleLetter name then mapInsert n2c (lowerStr name) code else n2c
  let n2c := mapInsert n2c name code
  let c2n :=
    match mapLookup c2n code with
    | some existing =>
        if name.length < existing.length ∧ ¬ startsWithLT name then
          mapInsert c2n code name
        else c2n
    | none => mapInsert c2n code name
  (n2c, c2n)

/-- Models `HidKeymap::new`: fold the construction loop over the whole table,
producing the `name_to_code` and `code_to_name` maps. -/
def keymapMaps : List (String × Nat) × List (Nat × String) :=
  KEYMAP_TABLE.foldl keymapStep ([], [])

/-- The `name_to_code` map of the constructed `HID_KEYMAP`. -/
def name_to_code : List (String × Nat) := keymapMaps.1

/-- The `code_to_name` map of the constructed `HID_KEYMAP`. -/
def code_to_name : List (Nat × String) := keymapMaps.2

/-- Models `HidKeymap::encode_key`: exact lookup first, then lowercased lookup. -/
def encode_key (name : String) : Option Nat :=
  match mapLookup name_to_code name with
  | some code => some code
  | none => mapLookup name_to_code (lowerStr name)

/-- Models `HidKeymap::decode_key`. -/
def decode_key (code : Nat) : Option String :=
  mapLookup code_to_name code

/-- Models `HidKeymap::encode_char`: look up the lowercased one-character string. -/
def encode_char (ch : Char) : Option Nat :=
  mapLookup name_to_code (lowerStr ⟨[ch]⟩)

/-! ## Configuration model (`configuration/*.rs`) -/

/-- Models `Trigger` from `configuration/mod.rs`. -/
inductive Trigger
  | OnPress
  | OnRelease
deriving DecidableEq, Repr

/-- Models `TriggerMode` from `protocol/packets.rs`. -/
inductive TriggerMode
  | Release
  | Press
deriving DecidableEq, Repr

/-- Models `TriggerMode::from_u8`. -/
def TriggerMode.from_u8 (value : Nat) : Option TriggerMode :=
  match value with
  | 0 => some .Release
  | 1 => some .Press
  | _ => none

/-- Models `From<TriggerMode> for Trigger`. -/
def Trigger.ofMode : TriggerMode → Trigger
  | .Press => .OnPress
  | .Release => .OnRelease

/-- Models `KeyMode` from `configuration/keyboard.rs`. -/
inductive KeyMode
  | Standard
  | OneShot
deriving DecidableEq, Repr

/-- Models `KeyboardConfiguration` (keyboard.rs).  `modifiers` is the
`ModifierKeys` bit-set carried as a `u8`. -/
structure KeyboardConfiguration where
  mode : KeyMode
  keys : List String
  modifiers : Nat
  trigger : Trigger
deriving DecidableEq, Repr

/-- Models `KeyboardConfiguration::with_modifiers` (trigger starts `OnPress`). -/
def KeyboardConfiguration.with_modifiers (mode : KeyMode) (keys : List String)
    (modifiers : Nat) : KeyboardConfiguration :=
  ⟨mode, keys, modifiers, .OnPress⟩

/-- Models `HashSet<MouseButton>` (mouse.rs) by membership of each of the five
buttons; `HashSet` equality is set equality, which this representation captures
exactly. -/
structure MouseButtons where
  left : Bool
  right : Bool
  middle : Bool
  back : Bool
  forward : Bool
deriving DecidableEq, Repr

/-- Models `MouseMode` from `configuration/mouse.rs`. -/
inductive MouseMode
  | Buttons (buttons : MouseButtons)
  | Axis (x y wheel : Int)
deriving DecidableEq, Repr

/-- Models `MouseConfiguration` from `configuration/mouse.rs`. -/
structure MouseConfiguration where
  mode : MouseMode
  trigger : Trigger
deriving DecidableEq, Repr

/-- Models `MouseConfiguration::buttons`. -/
def MouseConfiguration.buttons (b : MouseButtons) : MouseConfiguration :=
  ⟨.Buttons b, .OnPress⟩

/-- Models `MouseConfiguration::axis`. -/
def MouseConfiguration.axis (x y wheel : Int) : MouseConfiguration :=
  ⟨.Axis x y wheel, .OnPress⟩

/-- Models `TextConfiguration` from `configuration/text.rs`. -/
structure TextConfiguration where
  text : String
  trigger : Trigger
deriving DecidableEq, Repr

/-- Models `TextConfiguration::new` (trigger starts `OnPress`). -/
def TextConfiguration.new (text : String) : TextConfiguration :=
  ⟨text, .OnPress⟩

/-- Models `MediaButton` from `protocol/packets.rs`. -/
inductive MediaButton
  | VolumeMinus | VolumePlus | Mute | Play | Forward | Next | Stop
  | OpenPlayer | OpenHomepage | StopWebpage | BackBrowse | ForwardBrowse
  | Refresh | OpenMyComputer | OpenMail | OpenCalc | OpenSearch
  | Shutdown | Sleep
deriving DecidableEq, Repr

/-- The `repr(u8)` discriminant of a `MediaButton` (`MediaButton as u8`). -/
def MediaButton.toNat : MediaButton → Nat
  | .VolumeMinus => 1 | .VolumePlus => 2 | .Mute => 3 | .Play => 4
  | .Forward => 5 | .Next => 6 | .Stop => 7 | .OpenPlayer => 8
  | .OpenHomepage => 9 | .StopWebpage => 10 | .BackBrowse => 11
  | .ForwardBrowse => 12 | .Refresh => 13 | .OpenMyComputer => 14
  | .OpenMail => 15 | .OpenCalc => 16 | .OpenSearch => 17
  | .Shutdown => 18 | .Sleep => 19

/-- Models `MediaButton::from_u8`. -/
def MediaButton.from_u8 (value : Nat) : Option MediaButton :=
  match value with
  | 1 => some .VolumeMinus | 2 => some .VolumePlus | 3 => some .Mute
  | 4 => some .Play | 5 => some .Forward | 6 => some .Next | 7 => some .Stop
  | 8 => some .OpenPlayer | 9 => some .OpenHomepage | 10 => some .StopWebpage
  | 11 => some .BackBrowse | 12 => some .ForwardBrowse | 13 => some .Refresh
  | 14 => some .OpenMyComputer | 15 => some .OpenMail | 16 => some .OpenCalc
  | 17 => some .OpenSearch | 18 => some .Shutdown | 19 => some .Sleep
  | _ => none

/-- Models `GameKey` from `protocol/packets.rs`. -/
inductive GameKey
  | Left | Right | Up | Down
  | Button1 | Button2 | Button3 | Button4
  | Button5 | Button6 | Button7 | Button8
deriving DecidableEq, Repr

/-- The `repr(u8)` discriminant of a `GameKey` (`GameKey as u8`). -/
def GameKey.toNat : GameKey → Nat
  | .Left => 1 | .Right => 2 | .Up => 3 | .Down => 4
  | .Button1 => 5 | .Button2 => 6 | .Button3 => 7 | .Button4 => 8
  | .Button5 => 9 | .Button6 => 10 | .Button7 => 11 | .Button8 => 12

/-- Models `GameKey::from_u8`. -/
def GameKey.from_u8 (value : Nat) : Option GameKey :=
  match value with
  | 1 => some .Left | 2 => some .Right | 3 => some .Up | 4 => some .Down
  | 5 => some .Button1 | 6 => some .Button2 | 7 => some .Button3
  | 8 => some .Button4 | 9 => some .Button5 | 10 => some .Button6
  | 11 => some .Button7 | 12 => some .Button8
  | _ => none

/-- Models `MediaConfiguration` from `configuration/media.rs`. -/
structure MediaConfiguration where
  button : MediaButton
  trigger : Trigger
deriving DecidableEq, Repr

/-- Models `MediaConfiguration::new`. -/
def MediaConfiguration.new (button : MediaButton) : MediaConfiguration :=
  ⟨button, .OnPress⟩

/-- Models `GamepadConfiguration` from `configuration/gamepad.rs`. -/
structure GamepadConfiguration where
  button : GameKey
  trigger : Trigger
deriving DecidableEq, Repr

/-- Models `GamepadConfiguration::new`. -/
def GamepadConfiguration.new (button : GameKey) : GamepadConfiguration :=
  ⟨button, .OnPress⟩

/-- Models the `Configuration` enum from `configuration/mod.rs`. -/
inductive Configuration
  | Keyboard (c : KeyboardConfiguration)
  | Mouse (c : MouseConfiguration)
  | Text (c : TextConfiguration)
  | Media (c : MediaConfiguration)
  | Gamepad (c : GamepadConfiguration)
  | Unconfigured
deriving DecidableEq, Repr

/-- Models `Configuration::set_trigger`; note `Unconfigured` is a no-op. -/
def Configuration.set_trigger (c : Configuration) (t : Trigger) : Configuration :=
  match c with
  | .Keyboard k => .Keyboard { k with trigger := t }
  | .Mouse m => .Mouse { m with trigger := t }
  | .Text x => .Text { x with trigger := t }
  | .Media m => .Media { m with trigger := t }
  | .Gamepad g => .Gamepad { g with trigger := t }
  | .Unconfigured => .Unconfigured

/-! ## Error type (`error.rs`) -/

/-- Models the `PedalError` enum from `error.rs`. -/
inductive PedalError
  | Hid (msg : String)
  | DeviceNotFound (id : Nat)
  | UnknownModel (model : String)
  | Protocol (msg : String)
  | InvalidPedalIndex (index count : Nat)
  | InvalidConfiguration (msg : String)
  | Io (msg : String)
  | Timeout
  | DeviceBusy
  | PermissionDenied
  | ParseError (msg : String)
  | UnsupportedDevice (msg : String)
deriving DecidableEq, Repr

/-! ## Wire packet structures (`protocol/packets.rs`) -/

/-- Models the `ConfigType` enum. -/
inductive ConfigType
  | Unconfigured
  | Keyboard
  | KeyboardOnce
  | Mouse
  | Text
  | KeyboardMulti
  | KeyboardMultiOnce
  | Media
  | Game
deriving DecidableEq, Repr

/-- The `repr(u8)` discriminant of a `ConfigType` (`ConfigType as u8`). -/
def ConfigType.toNat : ConfigType → Nat
  | .Unconfigured => 0x00
  | .Keyboard => 0x01
  | .KeyboardOnce => 0x81
  | .Mouse => 0x02
  | .Text => 0x04
  | .KeyboardMulti => 0x06
  | .KeyboardMultiOnce => 0x86
  | .Media => 0x07
  | .Game => 0x08

/-- Models `ConfigType::from_u8`. -/
def ConfigType.from_u8 (value : Nat) : Option ConfigType :=
  match value with
  | 0x00 => some .Unconfigured
  | 0x01 => some .Keyboard
  | 0x81 => some .KeyboardOnce
  | 0x02 => some .Mouse
  | 0x04 => some .Text
  | 0x06 => some .KeyboardMulti
  | 0x86 => some .KeyboardMultiOnce
  | 0x07 => some .Media
  | 0x08 => some .Game
  | _ => none

/-- Models `ConfigPacket` (packets.rs): 1 size byte, 1 type byte, 38 data bytes.
The fixed `[u8; 38]` array is modelled as a length-38 list of bytes. -/
structure ConfigPacket where
  size : Nat
  config_type : Nat
  data : List Nat
deriving DecidableEq, Repr

/-- Byte `i` of a fixed byte array modelled as a list (out-of-range reads 0;
the source always reads in range of the 38-byte array). -/
def byteAt (l : List Nat) (i : Nat) : Nat := l.getD i 0

/-- A list of `n` zero bytes. -/
def zeros (n : Nat) : List Nat := List.replicate n 0

/-- Models `ConfigPacket::unconfigured`. -/
def ConfigPacket.unconfigured : ConfigPacket :=
  ⟨0, ConfigType.Unconfigured.toNat, zeros 38⟩

/-- Models `ConfigPacket::get_config_type`. -/
def ConfigPacket.get_config_type (p : ConfigPacket) : Option ConfigType :=
  ConfigType.from_u8 p.config_type

/-- Two's-complement reinterpretation of a byte as an `i8`. -/
def byteToI8 (b : Nat) : Int := if b < 128 then (b : Int) else (b : Int) - 256

/-- Two's-complement reinterpretation of an `i8` as a byte (`x as u8`). -/
def i8ToByte (x : Int) : Nat := (x % 256).toNat

/-- Models `KeyboardData` (packed layout: 1 modifier byte, 6 key bytes). -/
structure KeyboardData where
  modifiers : Nat
  keys : List Nat
deriving DecidableEq, Repr

/-- Models `MouseData` (packed layout: 2 unknown bytes, 1 button byte, 3 `i8`). -/
structure MouseData where
  unknown : List Nat
  buttons : Nat
  mouse_x : Int
  mouse_y : Int
  mouse_wheel : Int
deriving DecidableEq, Repr

/-- Models `MediaData`. -/
structure MediaData where
  key : Nat
deriving DecidableEq, Repr

/-- Models `GameData`. -/
structure GameData where
  key : Nat
deriving DecidableEq, Repr

/-- Models `TextData` (38 scan-code bytes). -/
structure TextData where
  string : List Nat
deriving DecidableEq, Repr

/-- Models the `ConfigData` enum. -/
inductive ConfigData
  | Keyboard (d : KeyboardData)
  | Mouse (d : MouseData)
  | Media (d : MediaData)
  | Game (d : GameData)
  | Text (d : TextData)
  | Raw (d : List Nat)
deriving DecidableEq, Repr

/-- Models `ConfigPacket::parse_data`: reinterpret the 38 data bytes at the fixed
offsets of the packed struct selected by the type byte. -/
def ConfigPacket.parse_data (p : ConfigPacket) : ConfigData :=
  match p.get_config_type with
  | some .Keyboard | some .KeyboardOnce | some .KeyboardMulti
  | some .KeyboardMultiOnce =>
      .Keyboard ⟨byteAt p.data 0,
        [byteAt p.data 1, byteAt p.data 2, byteAt p.data 3,
         byteAt p.data 4, byteAt p.data 5, byteAt p.data 6]⟩
  | some .Mouse =>
      .Mouse ⟨[byteAt p.data 0, byteAt p.data 1], byteAt p.data 2,
        byteToI8 (byteAt p.data 3), byteToI8 (byteAt p.data 4),
        byteToI8 (byteAt p.data 5)⟩
  | some .Media => .Media ⟨byteAt p.data 0⟩
  | some .Game => .Game ⟨byteAt p.data 0⟩
  | some .Text => .Text ⟨p.data.take 38⟩
  | _ => .Raw p.data

/-- Models `ModifierKeys` semantics: the bit-set is a `u8` whose 8 bits are all
defined flags, so `from_bits_truncate` only reduces the value modulo 256 and
`bits()` is the identity. -/
def ModifierKeys.from_bits_truncate (bits : Nat) : Nat := bits % 256

/-- Models `ProtocolMouseButton` bit tests (`contains` on the five defined
flags) applied to a raw button byte after `from_bits_truncate`. -/
def MouseButtons.ofBits (bits : Nat) : MouseButtons :=
  ⟨bits.land 0x01 != 0, bits.land 0x02 != 0, bits.land 0x04 != 0,
   bits.land 0x08 != 0, bits.land 0x10 != 0⟩

/-- Models the `proto_buttons |= …` accumulation in `encode_config`'s mouse arm:
the bitwise-or of the flag bits of the buttons present in the set. -/
def MouseButtons.toBits (b : MouseButtons) : Nat :=
  (if b.left then 0x01 else 0) |||
  (if b.right then 0x02 else 0) |||
  (if b.middle then 0x04 else 0) |||
  (if b.back then 0x08 else 0) |||
  (if b.forward then 0x10 else 0)

/-! ## Text byte codec (`configuration/text.rs`) -/

/-- The char of a hex digit, lowercase, as produced by the `{:02x}` format. -/
def hexDigitChar (n : Nat) : Char :=
  if n < 10 then Char.ofNat (48 + n) else Char.ofNat (87 + n)

/-- The two chars of a byte formatted `{:02x}` (bytes are < 256). -/
def hex2 (b : Nat) : List Char :=
  [hexDigitChar (b / 16 % 16), hexDigitChar (b % 16)]

/-- Models the loop body accumulation of `TextConfiguration::encode_for_protocol`:
encode each char through the keymap, fall back to the space code for `' '`, skip
unencodable chars, and stop once 38 bytes are accumulated (the length test runs
only after a byte was pushed, exactly as in the source). -/
def encodeForProtocolAux : List Char → List Nat → List Nat
  | [], acc => acc
  | ch :: rest, acc =>
      match encode_char ch with
      | some code =>
          let acc2 := acc ++ [code]
          if 38 ≤ acc2.length then acc2 else encodeForProtocolAux rest acc2
      | none =>
          if ch = ' ' then
            let acc2 := acc ++ [0x2c]
            if 38 ≤ acc2.length then acc2 else encodeForProtocolAux rest acc2
          else
            encodeForProtocolAux rest acc

/-- Models `TextConfiguration::encode_for_protocol`: accumulate scan codes, then
pad with zeros to 38 bytes. -/
def TextConfiguration.encode_for_protocol (t : TextConfiguration) : List Nat :=
  let encoded := encodeForProtocolAux t.text.data []
  encoded ++ zeros (38 - encoded.length)

/-- The chars contributed by one scan-code byte in
`TextConfiguration::decode_from_protocol`: `"space"` becomes `' '`, a
single-char name becomes that char, a longer name becomes `<name>`, and an
unknown code becomes `<0xHH>`. -/
def decodeTextPiece (b : Nat) : List Char :=
  match decode_key b with
  | some name =>
      if name = "space" then [' ']
      else if name.length = 1 then name.data
      else '<' :: (name.data ++ ['>'])
  | none => '<' :: '0' :: 'x' :: (hex2 b ++ ['>'])

/-- Models `TextConfiguration::decode_from_protocol`: decode bytes until the
first zero (null terminator). -/
def decode_from_protocol : List Nat → List Char
  | [] => []
  | b :: rest => if b = 0 then [] else decodeTextPiece b ++ decode_from_protocol rest

/-! ## Configuration codec (`protocol/ikkegol.rs`) -/

deriving instance DecidableEq for Except

/-- The key name recovered for one non-zero scan code: decode through the
keymap, falling back to the `0xHH` hex representation for unknown codes (this
fallback appears verbatim in `parse_config` and in
`PCsensorDevice::parse_configuration`). -/
def decodeKeyName (c : Nat) : String :=
  match decode_key c with
  | some name => name
  | none => ⟨'0' :: 'x' :: hex2 c⟩

/-- The key names recovered by `parse_config`'s keyboard arm: each non-zero scan
code in order, decoded through the keymap with a hex fallback. -/
def parseKeySlots (codes : List Nat) : List String :=
  (codes.filter (fun c => c ≠ 0)).map decodeKeyName

/-- Models `parse_config` from `protocol/ikkegol.rs`. -/
def parse_config (packet : ConfigPacket) : Except PedalError Configuration :=
  match packet.get_config_type with
  | some .Unconfigured => .ok .Unconfigured
  | some .Keyboard | some .KeyboardOnce | some .KeyboardMulti
  | some .KeyboardMultiOnce =>
      match packet.parse_data with
      | .Keyboard kbd =>
          let mode :=
            match packet.get_config_type with
            | some .KeyboardOnce | some .KeyboardMultiOnce => KeyMode.OneShot
            | _ => KeyMode.Standard
          let keys := parseKeySlots kbd.keys
          let modifiers := ModifierKeys.from_bits_truncate kbd.modifiers
          .ok (.Keyboard (KeyboardConfiguration.with_modifiers mode keys modifiers))
      | _ => .error (.Protocol "Invalid keyboard data")
  | some .Mouse =>
      match packet.parse_data with
      | .Mouse mouse =>
          if mouse.buttons ≠ 0 then
            .ok (.Mouse (MouseConfiguration.buttons (MouseButtons.ofBits mouse.buttons)))
          else
            .ok (.Mouse (MouseConfiguration.axis mouse.mouse_x mouse.mouse_y mouse.mouse_wheel))
      | _ => .error (.Protocol "Invalid mouse data")
  | some .Text =>
      match packet.parse_data with
      | .Text text =>
          .ok (.Text (TextConfiguration.new ⟨decode_from_protocol text.string⟩))
      | _ => .error (.Protocol "Invalid text data")
  | some .Media =>
      match packet.parse_data with
      | .Media media =>
          match MediaButton.from_u8 media.key with
          | some button => .ok (.Media (MediaConfiguration.new button))
          | none => .error (.Protocol ("Unknown media button: " ++ toString media.key))
      | _ => .error (.Protocol "Invalid media data")
  | some .Game =>
      match packet.parse_data with
      | .Game game =>
          match GameKey.from_u8 game.key with
          | some key => .ok (.Gamepad (GamepadConfiguration.new key))
          | none => .error (.Protocol ("Unknown game key: " ++ toString game.key))
      | _ => .error (.Protocol "Invalid game data")
  | none => .error (.Protocol ("Unknown config type: " ++ toString packet.config_type))

/-- The value of one hex digit char, as accepted by `u8::from_str_radix(_, 16)`. -/
def hexDigitVal (c : Char) : Option Nat :=
  if 48 ≤ c.toNat ∧ c.toNat ≤ 57 then some (c.toNat - 48)
  else if 97 ≤ c.toNat ∧ c.toNat ≤ 102 then some (c.toNat - 87)
  else if 65 ≤ c.toNat ∧ c.toNat ≤ 70 then some (c.toNat - 55)
  else none

/-- Models `u8::from_str_radix(s, 16)`: an optional leading `+`, then a
non-empty run of hex digits, failing on any other character or on overflow
past 255 (a leading `-` is rejected for unsigned integer types). -/
def parseHexByte (cs : List Char) : Option Nat :=
  let digits := match cs with
    | '+' :: rest => rest
    | _ => cs
  if digits = [] then none
  else
    match digits.foldl
        (fun acc c =>
          match acc, hexDigitVal c with
          | some a, some d => some (a * 16 + d)
          | _, _ => none)
        (some 0) with
    | some v => if v ≤ 255 then some v else none
    | none => none

/-- The scan code written into one key slot by `encode_config`'s keyboard arm:
a `0x`-prefixed hex literal parses directly, otherwise the keymap encodes the
name, otherwise the slot keeps its zero. -/
def encodeKeySlot (k : String) : Nat :=
  match (if k.data.take 2 = ['0', 'x'] then parseHexByte (k.data.drop 2) else none) with
  | some code => code
  | none =>
      match encode_key k with
      | some code => code
      | none => 0

/-- The 6 key-slot bytes built by `encode_config`'s keyboard loop: the first 6
keys each fill one slot (unencodable names leave their slot zero), remaining
slots stay zero. -/
def kbdSlots (keys : List String) : List Nat :=
  let filled := (keys.take 6).map encodeKeySlot
  filled ++ zeros (6 - filled.length)

/-- Models `encode_config` from `protocol/ikkegol.rs`.  The Rust function
returns `Result` but has no error path (it always ends in `Ok(packet)`), so it
is modelled as returning the packet directly. -/
def encode_config (config : Configuration) : ConfigPacket :=
  match config with
  | .Unconfigured => ⟨0, ConfigType.Unconfigured.toNat, zeros 38⟩
  | .Keyboard kbd =>
      let config_type :=
        if kbd.keys.length > 1 then
          if kbd.mode = KeyMode.OneShot then ConfigType.KeyboardMultiOnce.toNat
          else ConfigType.KeyboardMulti.toNat
        else
          if kbd.mode = KeyMode.OneShot then ConfigType.KeyboardOnce.toNat
          else ConfigType.Keyboard.toNat
      ⟨40, config_type, kbd.modifiers :: kbdSlots kbd.keys ++ zeros 31⟩
  | .Mouse mouse =>
      let bytes :=
        match mouse.mode with
        | .Buttons buttons => [0, 0, buttons.toBits, 0, 0, 0]
        | .Axis x y wheel => [0, 0, 0, i8ToByte x, i8ToByte y, i8ToByte wheel]
      ⟨40, ConfigType.Mouse.toNat, bytes ++ zeros 32⟩
  | .Text text =>
      ⟨40, ConfigType.Text.toNat, text.encode_for_protocol⟩
  | .Media media =>
      ⟨40, ConfigType.Media.toNat, media.button.toNat :: zeros 37⟩
  | .Gamepad gamepad =>
      ⟨40, ConfigType.Game.toNat, gamepad.button.toNat :: zeros 37⟩

/-! ## Command frames (`protocol/packets.rs`, `mod commands`) -/

namespace commands

/-- Models `commands::BEGIN_WRITE`. -/
def BEGIN_WRITE : List Nat := [0x01, 0x80, 0x08, 0x01, 0x00, 0x00, 0x00, 0x00]

/-- Models `commands::READ_MODEL`. -/
def READ_MODEL : List Nat := [0x01, 0x83, 0x08, 0x00, 0x00, 0x00, 0x00, 0x00]

/-- Models `commands::READ_TRIGGER_MODES`. -/
def READ_TRIGGER_MODES : List Nat := [0x01, 0x86, 0x00, 0x00, 0x00, 0x00, 0x00, 0x00]

/-- Models `commands::read_config` (`pedal_index + 1` is `u8` addition). -/
def read_config (pedal_index : Nat) : List Nat :=
  [0x01, 0x82, 0x08, (pedal_index + 1) % 256, 0x00, 0x00, 0x00, 0x00]

/-- Models `commands::write_config_header`. -/
def write_config_header (size pedal_index : Nat) : List Nat :=
  [0x01, 0x81, size % 256, (pedal_index + 1) % 256, 0x00, 0x00, 0x00, 0x00]

/-- Models `commands::write_trigger_modes`. -/
def write_trigger_modes (payload_size : Nat) : List Nat :=
  [0x01, 0x85, payload_size % 256, 0x00, 0x00, 0x00, 0x00, 0x00]

end commands

/-- Models `ConfigPacket::to_bytes`: the 40 bytes of the packed struct in field
order (1 size byte, 1 type byte, 38 data bytes). -/
def ConfigPacket.to_bytes (p : ConfigPacket) : List Nat :=
  p.size :: p.config_type :: p.data

/-- Models `slice::chunks(8)` followed by copying each chunk into a zeroed
8-byte buffer, as both drivers do when writing a packet body. -/
def chunk8 : List Nat → List (List Nat)
  | [] => []
  | a :: b :: c :: d :: e :: f :: g :: h :: rest => [a, b, c, d, e, f, g, h] :: chunk8 rest
  | l => [l ++ zeros (8 - l.length)]

/-! ## Device capabilities (`device/traits.rs`) -/

/-- Models `DeviceCapabilities` from `device/traits.rs`. -/
structure DeviceCapabilities where
  pedal_count : Nat
  first_pedal_index : Nat
  pedal_names : List String
deriving DecidableEq, Repr

/-- Models `DeviceCapabilities::get_protocol_index`. -/
def DeviceCapabilities.get_protocol_index (caps : DeviceCapabilities)
    (pedal_index : Nat) : Option Nat :=
  if pedal_index < caps.pedal_count then
    some (caps.first_pedal_index + pedal_index)
  else
    none

/-- Models `IkkegolModel` from `device/ikkegol.rs`. -/
inductive IkkegolModel
  | FS2020U1IR
  | FS2017U1IR
  | PCsensor
  | Scythe
  | Scythe2
  | FootSwitch1P
  | Unknown (s : String)
deriving DecidableEq, Repr

/-- Models `IkkegolModel::capabilities`. -/
def IkkegolModel.capabilities : IkkegolModel → DeviceCapabilities
  | .FS2020U1IR | .PCsensor | .Scythe | .Scythe2 =>
      ⟨3, 0, ["left", "middle", "right"]⟩
  | .FS2017U1IR | .FootSwitch1P => ⟨1, 1, ["pedal"]⟩
  | .Unknown _ => ⟨3, 0, ["left", "middle", "right"]⟩

/-! ## Device session state (`device/ikkegol.rs`, `device/pcsensor.rs`)

Both driver structs hold the same mutable session state: a cached
`Configuration` per pedal, a cached `TriggerMode` per pedal, and a per-pedal
modified flag.  Device I/O is abstracted as oracle parameters (`rd` for the
outcome of one pedal's read-and-parse, `wr` for the outcome of one pedal's
write sequence); each operation returns its `Result` together with the state
it leaves behind. -/

/-- The per-session mutable state shared by both driver families. -/
structure DeviceState where
  configurations : List Configuration
  trigger_modes : List TriggerMode
  modified_pedals : List Bool
deriving DecidableEq, Repr

/-- Models `has_modifications` (identical in both drivers): true when any
modified flag is set. -/
def has_modifications (st : DeviceState) : Bool :=
  st.modified_pedals.any (fun m => m)

/-- The `modified_indices` list collected at the start of
`IkkegolDevice::save_configuration`: the pedal indices whose modified flag is
set, in ascending order. -/
def dirtyIndices (caps : DeviceCapabilities) (st : DeviceState) : List Nat :=
  (List.range caps.pedal_count).filter (fun i => st.modified_pedals.getD i false)

namespace IkkegolDevice

/-- Models `IkkegolDevice::set_pedal_configuration` (`device/ikkegol.rs`):
bound-check, then replace the cached configuration and mark the flag. -/
def set_pedal_configuration (caps : DeviceCapabilities) (st : DeviceState)
    (pedal_index : Nat) (config : Configuration) :
    Except PedalError Unit × DeviceState :=
  if caps.pedal_count ≤ pedal_index then
    (.error (.InvalidPedalIndex pedal_index caps.pedal_count), st)
  else
    (.ok (),
      { st with
        configurations := st.configurations.set pedal_index config,
        modified_pedals := st.modified_pedals.set pedal_index true })

/-- The `for i in modified_indices` loop of `IkkegolDevice::save_configuration`:
attempt each pedal's write in order, stopping at the first failure; also
returns the indices successfully written. -/
def saveWrites (wr : Nat → Except PedalError Unit) :
    List Nat → Except PedalError Unit × List Nat
  | [] => (.ok (), [])
  | i :: rest =>
      match wr i with
      | .ok _ =>
          let r := saveWrites wr rest
          (r.1, i :: r.2)
      | .error e => (.error e, [])

/-- Models `IkkegolDevice::save_configuration`: collect the indices whose
modified flag is set (in ascending order), write each in turn, and clear all
modified flags only after every write succeeded; a failure aborts the loop and
leaves every flag as it was.  `wr i` abstracts the device I/O outcome of
`write_pedal_config(i)` for an in-range `i`. -/
def save_configuration (wr : Nat → Except PedalError Unit)
    (caps : DeviceCapabilities) (st : DeviceState) :
    Except PedalError Unit × DeviceState × List Nat :=
  match saveWrites wr (dirtyIndices caps st) with
  | (.ok _, trace) =>
      (.ok (), { st with modified_pedals := st.modified_pedals.map (fun _ => false) }, trace)
  | (.error e, trace) => (.error e, st, trace)

/-- The `for i in 0..pedal_count` read loop of
`IkkegolDevice::load_configuration`: each successful `read_pedal_config(i)`
stores the parsed configuration; a failure aborts, keeping pedals already
read.  `rd i` abstracts the read-and-parse outcome for pedal `i`. -/
def loadReads (rd : Nat → Except PedalError Configuration) :
    List Nat → DeviceState → Except PedalError Unit × DeviceState
  | [], st => (.ok (), st)
  | i :: rest, st =>
      match rd i with
      | .ok c => loadReads rd rest { st with configurations := st.configurations.set i c }
      | .error e => (.error e, st)

/-- The trigger-application loop of `IkkegolDevice::load_configuration`
(`configurations[i].set_trigger(trigger_modes[i].into())` for each pedal). -/
def applyTriggers (count : Nat) (modes : List TriggerMode)
    (configs : List Configuration) : List Configuration :=
  (List.range count).foldl
    (fun cs i =>
      cs.set i ((cs.getD i .Unconfigured).set_trigger (Trigger.ofMode (modes.getD i .Press))))
    configs

/-- Models `IkkegolDevice::load_configuration`: read every pedal, then the
trigger-mode report (`tmBuf` abstracts the 8-byte response buffer), decode a
trigger per pedal (`unwrap_or(Press)`), apply the triggers to the cached
configurations, and clear all modified flags. -/
def load_configuration (rd : Nat → Except PedalError Configuration)
    (tmBuf : Except PedalError (List Nat)) (caps : DeviceCapabilities)
    (st : DeviceState) : Except PedalError Unit × DeviceState :=
  match loadReads rd (List.range caps.pedal_count) st with
  | (.error e, st2) => (.error e, st2)
  | (.ok _, st2) =>
      match tmBuf with
      | .error e => (.error e, st2)
      | .ok buffer =>
          let modes :=
            (List.range caps.pedal_count).foldl
              (fun ms i =>
                if i < 8 then
                  ms.set i ((TriggerMode.from_u8 (byteAt buffer i)).getD .Press)
                else ms)
              st2.trigger_modes
          (.ok (),
            { configurations := applyTriggers caps.pedal_count modes st2.configurations,
              trigger_modes := modes,
              modified_pedals := st2.modified_pedals.map (fun _ => false) })

/-- The ordered list of 8-byte frames emitted on the wire by
`IkkegolDevice::write_pedal_config` for a valid pedal index: the begin-write
command, the write-config header addressed to the protocol index, then the
encoded 40-byte packet in five 8-byte chunks (`none` on the invalid-index
error path). -/
def writeFrames (caps : DeviceCapabilities) (pedal_index : Nat)
    (config : Configuration) : Option (List (List Nat)) :=
  match caps.get_protocol_index pedal_index with
  | none => none
  | some protocol_index =>
      let packet := encode_config config
      some (commands.BEGIN_WRITE ::
        commands.write_config_header packet.size protocol_index ::
        chunk8 packet.to_bytes)

end IkkegolDevice

namespace PCsensorDevice

/-- Models `PCsensorDevice::parse_configuration` (`device/pcsensor.rs`): decode
one 8-byte report by its type byte `data[1]`.  Note the catch-all arm returns
`Unconfigured`; the function has no error path. -/
def parse_configuration (data : List Nat) : Configuration :=
  let keyName : Nat → String := decodeKeyName
  match byteAt data 1 with
  | 0 => .Unconfigured
  | 1 =>
      let keys := if byteAt data 3 ≠ 0 then [keyName (byteAt data 3)] else []
      .Keyboard (KeyboardConfiguration.with_modifiers .Standard keys
        (ModifierKeys.from_bits_truncate (byteAt data 2)))
  | 0x81 =>
      let keys := if byteAt data 3 ≠ 0 then [keyName (byteAt data 3)] else []
      .Keyboard (KeyboardConfiguration.with_modifiers .OneShot keys
        (ModifierKeys.from_bits_truncate (byteAt data 2)))
  | 2 =>
      let buttons : Option MouseButtons :=
        match byteAt data 4 with
        | 1 => some ⟨true, false, false, false, false⟩
        | 2 => some ⟨false, true, false, false, false⟩
        | 4 => some ⟨false, false, true, false, false⟩
        | _ => none
      match buttons with
      | some b => .Mouse (MouseConfiguration.buttons b)
      | none =>
          .Mouse (MouseConfiguration.axis (byteToI8 (byteAt data 5))
            (byteToI8 (byteAt data 6)) (byteToI8 (byteAt data 7)))
  | 3 =>
      let keys := if byteAt data 3 ≠ 0 then [keyName (byteAt data 3)] else []
      .Keyboard (KeyboardConfiguration.with_modifiers .Standard keys
        (ModifierKeys.from_bits_truncate (byteAt data 2)))
  | 4 => .Text (TextConfiguration.new "")
  | _ => .Unconfigured

/-- Models `PCsensorDevice::set_pedal_configuration` (`device/pcsensor.rs`,
textually identical to the Ikkegol implementation). -/
def set_pedal_configuration (caps : DeviceCapabilities) (st : DeviceState)
    (pedal_index : Nat) (config : Configuration) :
    Except PedalError Unit × DeviceState :=
  if caps.pedal_count ≤ pedal_index then
    (.error (.InvalidPedalIndex pedal_index caps.pedal_count), st)
  else
    (.ok (),
      { st with
        configurations := st.configurations.set pedal_index config,
        modified_pedals := st.modified_pedals.set pedal_index true })

/-- The `for i in 0..pedal_count` loop of
`PCsensorDevice::load_configuration`: each successful `read_pedal_config(i)`
stores the parsed configuration and trigger mode (`rd i` abstracts the USB
read-and-parse); the modified flags are never touched. -/
def loadReads (rd : Nat → Except PedalError (Configuration × TriggerMode)) :
    List Nat → DeviceState → Except PedalError Unit × DeviceState
  | [], st => (.ok (), st)
  | i :: rest, st =>
      match rd i with
      | .ok ct =>
          loadReads rd rest
            { st with
              configurations := st.configurations.set i ct.1,
              trigger_modes := st.trigger_modes.set i ct.2 }
      | .error e => (.error e, st)

/-- Models `PCsensorDevice::load_configuration`. -/
def load_configuration (rd : Nat → Except PedalError (Configuration × TriggerMode))
    (caps : DeviceCapabilities) (st : DeviceState) :
    Except PedalError Unit × DeviceState :=
  loadReads rd (List.range caps.pedal_count) st

/-- The `for i in 0..3` loop of `PCsensorDevice::save_configuration`: pedal
slots below `pedal_count` get a real configuration write (`wr i`), the
remaining slots up to 3 get the placeholder header-plus-empty write (`phw i`);
the loop stops at the first failure.  Returns the slots written so far. -/
def saveLoop (wr phw : Nat → Except PedalError Unit) (caps : DeviceCapabilities) :
    List Nat → Except PedalError Unit × List Nat
  | [] => (.ok (), [])
  | i :: rest =>
      match (if i < caps.pedal_count then wr i else phw i) with
      | .ok _ =>
          let r := saveLoop wr phw caps rest
          (r.1, i :: r.2)
      | .error e => (.error e, [])

/-- Models `PCsensorDevice::save_configuration`: write all three protocol
slots unconditionally (the modified flags are neither consulted nor cleared,
and the cached state is untouched). -/
def save_configuration (wr phw : Nat → Except PedalError Unit)
    (caps : DeviceCapabilities) (st : DeviceState) :
    Except PedalError Unit × DeviceState × List Nat :=
  match saveLoop wr phw caps [0, 1, 2] with
  | (r, trace) => (r, st, trace)

/-- The read-config query frame built inline in
`PCsensorDevice::read_pedal_config` (pcsensor.rs line 213). -/
def readQueryFrame (pedal_index : Nat) : List Nat :=
  [0x01, 0x82, 0x08, (pedal_index + 1) % 256, 0, 0, 0, 0]

/-- The start-write frame built inline in
`PCsensorDevice::write_pedal_config` (pcsensor.rs line 395). -/
def startFrame : List Nat := [0x01, 0x80, 0x08, 0, 0, 0, 0, 0]

/-- The per-pedal write header built inline in
`PCsensorDevice::write_pedal_config` (pcsensor.rs line 400). -/
def writeHeaderFrame (pedal_index : Nat) : List Nat :=
  [0x01, 0x81, 0x08, (pedal_index + 1) % 256, 0, 0, 0, 0]

/-- The placeholder empty-configuration frame written for non-existent pedal
slots in `PCsensorDevice::save_configuration` (pcsensor.rs line 485). -/
def emptyConfigFrame : List Nat := [8, 0, 0, 0, 0, 0, 0, 0]

end PCsensorDevice

/-! ## CLI text validation (`clutchctl-cli/src/commands/set.rs`) -/

/-- Models `char::len_utf8`. -/
def charUtf8Len (c : Char) : Nat :=
  if c.toNat < 0x80 then 1
  else if c.toNat < 0x800 then 2
  else if c.toNat < 0x10000 then 3
  else 4

/-- Models `String::len`: the UTF-8 byte length. -/
def strByteLen (s : String) : Nat := (s.data.map charUtf8Len).sum

/-- Models the `SetConfig::Text` arm of `execute` in `commands/set.rs`:
reject a text whose byte length exceeds 38 before building the configuration;
otherwise build the `TextConfiguration` and apply the inversion flag. -/
def setTextArm (text : String) (invert : Bool) : Except String Configuration :=
  if strByteLen text > 38 then
    .error "Text too long (max 38 characters)"
  else
    let cfg := TextConfiguration.new text
    let cfg := if invert then { cfg with trigger := Trigger.OnRelease } else cfg
    .ok (.Text cfg)

/-! ## Packet-representability of a configuration

`parse_config (encode_config c) = Ok c` cannot hold for every field value: the
packet does not carry the trigger, an empty mouse button set encodes like a
zero axis, and key names / text characters survive only when the keymap maps
them to a nonzero code that decodes back to the same spelling.  The following
predicates capture exactly the field values the packet can represent. -/

/-- The all-empty mouse button set (`HashSet::new` with nothing inserted). -/
def emptyButtons : MouseButtons := ⟨false, false, false, false, false⟩

/-- One keyboard key name survives the encode/decode pair: it encodes to a
nonzero slot byte whose decoding is the name itself. -/
def keySlotRoundTripsB (k : String) : Bool :=
  encodeKeySlot k != 0 && decodeKeyName (encodeKeySlot k) == k

/-- One text character survives the encode/decode pair: `encode_char` yields a
nonzero code whose text decoding is that character alone. -/
def charRoundTripsB (ch : Char) : Bool :=
  match encode_char ch with
  | some c => c != 0 && decodeTextPiece c == [ch]
  | none => false

/-- The configurations whose field values the 40-byte packet can represent. -/
def Representable : Configuration → Prop
  | .Keyboard k =>
      k.trigger = .OnPress ∧ k.keys.length ≤ 6 ∧ k.modifiers < 256 ∧
      ∀ key ∈ k.keys, keySlotRoundTripsB key = true
  | .Mouse m =>
      m.trigger = .OnPress ∧
      (match m.mode with
       | .Buttons b => b ≠ emptyButtons
       | .Axis x y w =>
           -128 ≤ x ∧ x ≤ 127 ∧ -128 ≤ y ∧ y ≤ 127 ∧ -128 ≤ w ∧ w ≤ 127)
  | .Text t =>
      t.trigger = .OnPress ∧ t.text.data.length ≤ 38 ∧
      ∀ ch ∈ t.text.data, charRoundTripsB ch = true
  | .Media m => m.trigger = .OnPress
  | .Gamepad g => g.trigger = .OnPress
  | .Unconfigured => True

/-! ## Sample fixtures used by witnesses and counterexamples -/

/-- A 3-pedal capability set as built for the FS2020U1IR / PCsensor models. -/
def sampleCaps3 : DeviceCapabilities := ⟨3, 0, ["left", "middle", "right"]⟩

/-- A freshly-constructed 3-pedal session state (all clean). -/
def sampleCleanState : DeviceState :=
  ⟨List.replicate 3 .Unconfigured, List.replicate 3 .Press, List.replicate 3 false⟩

/-- A 3-pedal session state with pedals 0 and 1 dirty. -/
def sampleDirtyState : DeviceState :=
  ⟨List.replicate 3 .Unconfigured, List.replicate 3 .Press, [true, true, false]⟩

/-- A write oracle on which every pedal write succeeds. -/
def wrAllOk : Nat → Except PedalError Unit := fun _ => .ok ()

/-- A write oracle on which pedal 0's write succeeds and every later pedal's
write fails with an I/O error. -/
def wrFailAfter0 : Nat → Except PedalError Unit :=
  fun i => if i = 0 then .ok () else .error (.Hid "write failed")

/-- A read oracle returning an unconfigured pedal everywhere (Ikkegol shape). -/
def rdAllUnconfigured : Nat → Except PedalError Configuration := fun _ => .ok .Unconfigured

/-- A read oracle returning an unconfigured pedal everywhere (PCsensor shape). -/
def rdAllUnconfiguredPC : Nat → Except PedalError (Configuration × TriggerMode) :=
  fun _ => .ok (.Unconfigured, .Press)

/-- A successful trigger-mode response buffer. -/
def tmBufAllPress : Except PedalError (List Nat) := .ok [1, 1, 1, 0, 0, 0, 0, 0]

/-- A two-key keyboard configuration used to exercise the codec. -/
def sampleKbd2 : Configuration :=
  .Keyboard (KeyboardConfiguration.with_modifiers .Standard ["a", "b"] 3)

/-! ## Helper lemmas -/

theorem charOfNat_toNat {n : Nat} (h1 : 97 ≤ n) (h2 : n ≤ 122) :
    (Char.ofNat n).toNat = n := by
  unfold Char.ofNat
  rw [dif_pos]
  · rfl
  · exact Or.inl (by omega)

theorem lowerChar_fix (c : Char) : lowerChar (lowerChar c) = lowerChar c := by
  unfold lowerChar
  by_cases h : 65 ≤ c.toNat ∧ c.toNat ≤ 90
  · have ht : (Char.ofNat (c.toNat + 32)).toNat = c.toNat + 32 :=
      charOfNat_toNat (by omega) (by omega)
    have hneg : ¬ (65 ≤ (Char.ofNat (c.toNat + 32)).toNat ∧
        (Char.ofNat (c.toNat + 32)).toNat ≤ 90) := by
      rw [ht]; omega
    rw [if_pos h, if_neg hneg]
  · rw [if_neg h, if_neg h]

theorem one_le_charUtf8Len (c : Char) : 1 ≤ charUtf8Len c := by
  simp only [charUtf8Len]
  split_ifs <;> omega

theorem length_le_utf8Sum (l : List Char) : l.length ≤ (l.map charUtf8Len).sum := by
  induction l with
  | nil => simp
  | cons c cs ih =>
      have := one_le_charUtf8Len c
      simp only [List.length_cons, List.map_cons, List.sum_cons]
      omega

theorem encodeForProtocolAux_length_le (t : List Char) :
    ∀ acc : List Nat, acc.length ≤ 37 → (encodeForProtocolAux t acc).length ≤ 38 := by
  induction t with
  | nil => intro acc h; simpa [encodeForProtocolAux] using by omega
  | cons ch rest ih =>
      intro acc h
      unfold encodeForProtocolAux
      cases hec : encode_char ch with
      | some code =>
          simp only
          by_cases h38 : 38 ≤ (acc ++ [code]).length
          · rw [if_pos h38]; simp; omega
          · rw [if_neg h38]
            exact ih _ (by simp at h38 ⊢; omega)
      | none =>
          simp only
          by_cases hsp : ch = ' '
          · rw [if_pos hsp]
            by_cases h38 : 38 ≤ (acc ++ [0x2c]).length
            · rw [if_pos h38]; simp; omega
            · rw [if_neg h38]
              exact ih _ (by simp at h38 ⊢; omega)
          · rw [if_neg hsp]
            exact ih _ h

theorem encode_for_protocol_length (t : TextConfiguration) :
    t.encode_for_protocol.length = 38 := by
  unfold TextConfiguration.encode_for_protocol
  have h := encodeForProtocolAux_length_le t.text.data [] (by simp)
  simp only [List.length_append, zeros, List.length_replicate]
  omega

/-! ## Claim theorems -/

/-- Claim C9: the keymap satisfies the five stated equalities: `encode_key` is
case-sensitive for single letters (`"a"` gives 0x04, `"A"` gives 0x84),
case-insensitive for multi-character names (`"f5"` and `"F5"` both give the F5
code 0x3e), `decode_key 0x28` is `"enter"`, and `decode_key 0xff` is `none`. -/
theorem keymap_exact_equalities :
    encode_key "a" = some 0x04 ∧
    encode_key "A" = some 0x84 ∧
    encode_key "f5" = some 0x3e ∧
    encode_key "F5" = some 0x3e ∧
    encode_key "f5" = encode_key "F5" ∧
    decode_key 0x28 = some "enter" ∧
    decode_key 0xff = none := by
  decide

/-- Claim C10: character-to-scan-code encoding is case-insensitive — for every
character, `encode_char` agrees with `encode_char` of its lowercased form (in
particular for every alphabetic character); concretely `encode_char 'A'` is the
unshifted code 0x04 (the same as `encode_char 'a'`), while `encode_key "A"`
is the shifted code 0x84. -/
theorem encode_char_case_insensitive :
    (∀ ch : Char, encode_char ch = encode_char (lowerChar ch)) ∧
    encode_char 'A' = some 0x04 ∧
    encode_char 'a' = some 0x04 ∧
    encode_key "A" = some 0x84 := by
  refine ⟨?_, by decide, by decide, by decide⟩
  intro ch
  simp only [encode_char, lowerStr, List.map, lowerChar_fix]

/-- Claim C8: an input string longer than 38 characters is rejected by the CLI
text arm with a validation error before any byte encoding happens (the check is
on the UTF-8 byte length, which is at least the character count); the byte
encoder itself always produces exactly 38 bytes, truncating only there. -/
theorem text_length_validation :
    (∀ (text : String) (invert : Bool), 38 < text.data.length →
      setTextArm text invert = .error "Text too long (max 38 characters)") ∧
    (∀ t : TextConfiguration, t.encode_for_protocol.length = 38) := by
  constructor
  · intro text invert h
    have hb : 38 < strByteLen text := by
      have := length_le_utf8Sum text.data
      unfold strByteLen
      omega
    unfold setTextArm
    rw [if_pos hb]
  · exact encode_for_protocol_length

/-- Witness for C8 at a concrete 39-character string. -/
theorem text_length_validation_witness :
    setTextArm "aaaaaaaaaaaaaaaaaaaaaaaaaaaaaaaaaaaaaaa" false
      = .error "Text too long (max 38 characters)" :=
  text_length_validation.1 "aaaaaaaaaaaaaaaaaaaaaaaaaaaaaaaaaaaaaaa" false (by decide)

/-- Claim C5: `set_pedal_configuration` with an index at or above the pedal
count fails with the invalid-index error and returns the session state
unchanged, in both driver families. -/
theorem set_pedal_invalid_index :
    ∀ (caps : DeviceCapabilities) (st : DeviceState) (i : Nat) (c : Configuration),
      caps.pedal_count ≤ i →
      IkkegolDevice.set_pedal_configuration caps st i c
          = (.error (.InvalidPedalIndex i caps.pedal_count), st) ∧
      PCsensorDevice.set_pedal_configuration caps st i c
          = (.error (.InvalidPedalIndex i caps.pedal_count), st) := by
  intro caps st i c h
  constructor
  · simp [IkkegolDevice.set_pedal_configuration, h]
  · simp [PCsensorDevice.set_pedal_configuration, h]

/-- Witness for C5: index 3 on a 3-pedal session. -/
theorem set_pedal_invalid_index_witness :
    IkkegolDevice.set_pedal_configuration sampleCaps3 sampleCleanState 3 .Unconfigured
        = (.error (.InvalidPedalIndex 3 3), sampleCleanState) ∧
    PCsensorDevice.set_pedal_configuration sampleCaps3 sampleCleanState 3 .Unconfigured
        = (.error (.InvalidPedalIndex 3 3), sampleCleanState) :=
  set_pedal_invalid_index sampleCaps3 sampleCleanState 3 .Unconfigured (by decide)

/-- Counterexample for C4: the PCsensor per-report parser maps the unrecognized
type byte 5 to `Unconfigured` instead of failing with a protocol error (the
function has no error path at all). -/
theorem pcsensor_unknown_type_silent :
    PCsensorDevice.parse_configuration [8, 5, 0, 0, 0, 0, 0, 0] = .Unconfigured ∧
    (5 : Nat) ∉ [0x00, 0x01, 0x81, 0x02, 0x04, 0x06, 0x86, 0x07, 0x08] := by
  decide

/-- Claim C4 (amended): on the packet codec path (`parse_config`) an
unrecognized type byte is a hard protocol error; the PCsensor driver's
per-report parser, however, silently returns `Unconfigured` for unrecognized
type bytes. -/
theorem unknown_type_is_protocol_error :
    (∀ packet : ConfigPacket,
      packet.config_type ∉ [0x00, 0x01, 0x81, 0x02, 0x04, 0x06, 0x86, 0x07, 0x08] →
      parse_config packet
        = .error (.Protocol ("Unknown config type: " ++ toString packet.config_type))) ∧
    PCsensorDevice.parse_configuration [8, 9, 0, 0, 0, 0, 0, 0] = .Unconfigured := by
  constructor
  · intro p h
    have hn : ConfigType.from_u8 p.config_type = none := by
      unfold ConfigType.from_u8
      split <;> simp_all
    simp [parse_config, ConfigPacket.get_config_type, hn]
  · decide

/-- Witness for C4 (amended) at type byte 5. -/
theorem unknown_type_is_protocol_error_witness :
    parse_config ⟨8, 5, zeros 38⟩
      = .error (.Protocol ("Unknown config type: " ++ toString (5 : Nat))) :=
  unknown_type_is_protocol_error.1 ⟨8, 5, zeros 38⟩ (by decide)

/-- Counterexample for C7: the begin-write frame emitted inline by the PCsensor
driver's write path carries 0x00 in its fourth byte, not the 0x01 the frame
table specifies. -/
theorem pcsensor_start_frame_differs :
    PCsensorDevice.startFrame ≠ commands.BEGIN_WRITE ∧
    PCsensorDevice.startFrame = [0x01, 0x80, 0x08, 0x00, 0, 0, 0, 0] := by
  decide

/-- Claim C7 (amended): the command frames are byte-for-byte as specified —
begin-write, read-model, read-trigger-modes, read-config(p) and
write-config-header(size, p) in the `commands` module, and the PCsensor
driver's inline read-config and write-header frames coincide with them — with
the single exception that the PCsensor driver's inline begin-write frame
carries 0x00 instead of 0x01 in its fourth byte. -/
theorem command_frames_exact :
    commands.BEGIN_WRITE = [0x01, 0x80, 0x08, 0x01, 0, 0, 0, 0] ∧
    commands.READ_MODEL = [0x01, 0x83, 0x08, 0, 0, 0, 0, 0] ∧
    commands.READ_TRIGGER_MODES = [0x01, 0x86, 0, 0, 0, 0, 0, 0] ∧
    (∀ p : Nat, p + 1 < 256 →
      commands.read_config p = [0x01, 0x82, 0x08, p + 1, 0, 0, 0, 0]) ∧
    (∀ s p : Nat, s < 256 → p + 1 < 256 →
      commands.write_config_header s p = [0x01, 0x81, s, p + 1, 0, 0, 0, 0]) ∧
    (∀ p : Nat, PCsensorDevice.readQueryFrame p = commands.read_config p) ∧
    (∀ p : Nat, PCsensorDevice.writeHeaderFrame p = commands.write_config_header 8 p) ∧
    PCsensorDevice.startFrame = [0x01, 0x80, 0x08, 0x00, 0, 0, 0, 0] := by
  refine ⟨rfl, rfl, rfl, ?_, ?_, ?_, ?_, rfl⟩
  · intro p hp
    simp [commands.read_config, Nat.mod_eq_of_lt hp]
  · intro s p hs hp
    simp [commands.write_config_header, Nat.mod_eq_of_lt hs, Nat.mod_eq_of_lt hp]
  · intro p
    simp [PCsensorDevice.readQueryFrame, commands.read_config]
  · intro p
    simp [PCsensorDevice.writeHeaderFrame, commands.write_config_header]

/-- Witness for C7 (amended) at concrete pedal index 0 and size 40. -/
theorem command_frames_exact_witness :
    commands.read_config 0 = [0x01, 0x82, 0x08, 1, 0, 0, 0, 0] ∧
    commands.write_config_header 40 1 = [0x01, 0x81, 40, 2, 0, 0, 0, 0] :=
  ⟨command_frames_exact.2.2.2.1 0 (by decide),
   command_frames_exact.2.2.2.2.1 40 1 (by decide) (by decide)⟩

/-- Claim C6: a device whose capabilities report one pedal with protocol-index
offset 1 (the FS2017U1IR / FootSwitch1P shape) maps external pedal 0 to
protocol slot 1, and the write path for that pedal emits the write-config
header whose pedal byte is the `(p+1)` field for protocol slot 1 (that is,
byte 3 equals 2), as does the read-config frame for protocol slot 1. -/
theorem one_pedal_offset_addressing :
    IkkegolModel.FS2017U1IR.capabilities.pedal_count = 1 ∧
    IkkegolModel.FS2017U1IR.capabilities.first_pedal_index = 1 ∧
    IkkegolModel.FS2017U1IR.capabilities.get_protocol_index 0 = some 1 ∧
    (∀ c : Configuration,
      IkkegolDevice.writeFrames IkkegolModel.FS2017U1IR.capabilities 0 c =
        some (commands.BEGIN_WRITE ::
          commands.write_config_header (encode_config c).size 1 ::
          chunk8 (encode_config c).to_bytes)) ∧
    (∀ s : Nat, (commands.write_config_header s 1).getD 3 0 = 2) ∧
    (commands.read_config 1).getD 3 0 = 2 := by
  refine ⟨rfl, rfl, by decide, ?_, ?_, by decide⟩
  · intro c
    simp [IkkegolDevice.writeFrames, DeviceCapabilities.get_protocol_index,
      IkkegolModel.capabilities]
  · intro s
    simp [commands.write_config_header, List.getD]

theorem saveWrites_ok (wr : Nat → Except PedalError Unit) :
    ∀ l : List Nat, (IkkegolDevice.saveWrites wr l).1 = .ok () →
      (IkkegolDevice.saveWrites wr l).2 = l := by
  intro l
  induction l with
  | nil => intro _; rfl
  | cons i rest ih =>
      intro h
      unfold IkkegolDevice.saveWrites at h ⊢
      cases hw : wr i with
      | ok u =>
          rw [hw] at h
          simp at h ⊢
          exact ih h
      | error e => rw [hw] at h; simp at h

theorem saveWrites_error (wr : Nat → Except PedalError Unit) :
    ∀ (l : List Nat) (e : PedalError), (IkkegolDevice.saveWrites wr l).1 = .error e →
      ∃ j ∈ l, wr j = .error e := by
  intro l
  induction l with
  | nil => intro e h; simp [IkkegolDevice.saveWrites] at h
  | cons i rest ih =>
      intro e h
      unfold IkkegolDevice.saveWrites at h
      cases hw : wr i with
      | ok u =>
          rw [hw] at h
          simp at h
          obtain ⟨j, hj, hje⟩ := ih e h
          exact ⟨j, List.mem_cons_of_mem i hj, hje⟩
      | error e2 =>
          rw [hw] at h
          simp at h
          exact ⟨i, List.mem_cons_self i rest, by rw [hw, h]⟩

theorem saveLoop_ok (wr phw : Nat → Except PedalError Unit) (caps : DeviceCapabilities) :
    ∀ l : List Nat, (PCsensorDevice.saveLoop wr phw caps l).1 = .ok () →
      (PCsensorDevice.saveLoop wr phw caps l).2 = l := by
  intro l
  induction l with
  | nil => intro _; rfl
  | cons i rest ih =>
      intro h
      unfold PCsensorDevice.saveLoop at h ⊢
      cases hw : (if i < caps.pedal_count then wr i else phw i) with
      | ok u =>
          rw [hw] at h
          simp at h ⊢
          exact ih h
      | error e => rw [hw] at h; simp at h

/-- Counterexample for C2: with pedals 0 and 1 dirty and a write oracle on
which pedal 0's write succeeds and pedal 1's fails, the Ikkegol save returns
the raw I/O error (it does not identify pedal 1) and leaves pedal 0's dirty
flag set (the claim says it would be clear); moreover the PCsensor save on a
fully clean session still writes all three pedal slots. -/
theorem save_failure_keeps_flags :
    (IkkegolDevice.save_configuration wrFailAfter0 sampleCaps3 sampleDirtyState).1
        = .error (.Hid "write failed") ∧
    (IkkegolDevice.save_configuration wrFailAfter0 sampleCaps3 sampleDirtyState).2.1.modified_pedals
        = [true, true, false] ∧
    (IkkegolDevice.save_configuration wrFailAfter0 sampleCaps3 sampleDirtyState).2.2 = [0] ∧
    (PCsensorDevice.save_configuration wrAllOk wrAllOk sampleCaps3 sampleCleanState).2.2
        = [0, 1, 2] ∧
    dirtyIndices sampleCaps3 sampleCleanState = [] := by
  decide

/-- Claim C2 (amended): the Ikkegol save writes exactly the dirty slots in
ascending pedal-index order and, when every write succeeds, clears all dirty
flags together afterwards; when a write fails it propagates that write's error
unchanged and leaves every dirty flag (including those of already-written
pedals) as it was.  The PCsensor save ignores the dirty flags entirely: it
writes all three pedal slots unconditionally and never touches the session
state. -/
theorem save_writes_dirty_slots :
    (∀ (wr : Nat → Except PedalError Unit) (caps : DeviceCapabilities) (st : DeviceState),
      (IkkegolDevice.save_configuration wr caps st).1 = .ok () →
      (IkkegolDevice.save_configuration wr caps st).2.2 = dirtyIndices caps st ∧
      (IkkegolDevice.save_configuration wr caps st).2.1
        = { st with modified_pedals := st.modified_pedals.map (fun _ => false) }) ∧
    (∀ (wr : Nat → Except PedalError Unit) (caps : DeviceCapabilities) (st : DeviceState)
        (e : PedalError),
      (IkkegolDevice.save_configuration wr caps st).1 = .error e →
      (IkkegolDevice.save_configuration wr caps st).2.1 = st ∧
      ∃ j ∈ dirtyIndices caps st, wr j = .error e) ∧
    (∀ (caps : DeviceCapabilities) (st : DeviceState),
      (dirtyIndices caps st).Pairwise (· < ·)) ∧
    (∀ (wr phw : Nat → Except PedalError Unit) (caps : DeviceCapabilities) (st : DeviceState),
      (PCsensorDevice.save_configuration wr phw caps st).2.1 = st) ∧
    (∀ (wr phw : Nat → Except PedalError Unit) (caps : DeviceCapabilities) (st : DeviceState),
      (PCsensorDevice.save_configuration wr phw caps st).1 = .ok () →
      (PCsensorDevice.save_configuration wr phw caps st).2.2 = [0, 1, 2]) := by
  refine ⟨?_, ?_, ?_, ?_, ?_⟩
  · intro wr caps st h
    unfold IkkegolDevice.save_configuration at h ⊢
    rcases hsw : IkkegolDevice.saveWrites wr (dirtyIndices caps st) with ⟨r, tr⟩
    rw [hsw] at h
    cases r with
    | ok u =>
        cases u
        have htr := saveWrites_ok wr (dirtyIndices caps st) (by rw [hsw])
        rw [hsw] at htr
        exact ⟨htr, rfl⟩
    | error e => exact Except.noConfusion h
  · intro wr caps st e h
    unfold IkkegolDevice.save_configuration at h ⊢
    rcases hsw : IkkegolDevice.saveWrites wr (dirtyIndices caps st) with ⟨r, tr⟩
    rw [hsw] at h
    cases r with
    | ok u => cases u; exact Except.noConfusion h
    | error e2 =>
        have h2 : (Except.error e2 : Except PedalError Unit) = .error e := h
        injection h2 with h3
        subst h3
        refine ⟨rfl, ?_⟩
        exact saveWrites_error wr (dirtyIndices caps st) e2 (by rw [hsw])
  · intro caps st
    exact (List.pairwise_lt_range _).sublist (List.filter_sublist _)
  · intro wr phw caps st
    unfold PCsensorDevice.save_configuration
    rcases PCsensorDevice.saveLoop wr phw caps [0, 1, 2] with ⟨r, tr⟩
    rfl
  · intro wr phw caps st h
    unfold PCsensorDevice.save_configuration at h ⊢
    rcases hsl : PCsensorDevice.saveLoop wr phw caps [0, 1, 2] with ⟨r, tr⟩
    rw [hsl] at h
    have htr := saveLoop_ok wr phw caps [0, 1, 2] (by rw [hsl]; exact h)
    rw [hsl] at htr
    exact htr

/-- Witness for C2 (amended): an all-successful save on a session with pedals
0 and 1 dirty writes exactly pedals 0 and 1 and clears all flags. -/
theorem save_writes_dirty_slots_witness :
    (IkkegolDevice.save_configuration wrAllOk sampleCaps3 sampleDirtyState).2.2
        = dirtyIndices sampleCaps3 sampleDirtyState ∧
    (IkkegolDevice.save_configuration wrAllOk sampleCaps3 sampleDirtyState).2.1
        = { sampleDirtyState with
            modified_pedals := sampleDirtyState.modified_pedals.map (fun _ => false) } :=
  save_writes_dirty_slots.1 wrAllOk sampleCaps3 sampleDirtyState (by decide)

theorem any_set_true (l : List Bool) (i : Nat) (h : i < l.length) :
    (l.set i true).any (fun m => m) = true := by
  simp only [List.any_eq_true]
  have h2 : i < (l.set i true).length := by simpa using h
  exact ⟨(l.set i true).get ⟨i, h2⟩, List.getElem_mem h2, List.getElem_set_self h2⟩

theorem pcsensor_loadReads_modified
    (rd : Nat → Except PedalError (Configuration × TriggerMode)) :
    ∀ (l : List Nat) (st : DeviceState),
      ((PCsensorDevice.loadReads rd l st).2).modified_pedals = st.modified_pedals := by
  intro l
  induction l with
  | nil => intro st; rfl
  | cons i rest ih =>
      intro st
      unfold PCsensorDevice.loadReads
      cases hr : rd i with
      | ok ct => exact ih _
      | error e => rfl

/-- Counterexample for C3: on a PCsensor session, marking pedal 0 and then
running a save that completes without error leaves `has_modifications` true
(the claim says it returns false again). -/
theorem pcsensor_save_keeps_modifications :
    has_modifications
        (PCsensorDevice.set_pedal_configuration sampleCaps3 sampleCleanState 0 sampleKbd2).2
      = true ∧
    (PCsensorDevice.save_configuration wrAllOk wrAllOk sampleCaps3
        (PCsensorDevice.set_pedal_configuration sampleCaps3 sampleCleanState 0 sampleKbd2).2).1
      = .ok () ∧
    has_modifications
        (PCsensorDevice.save_configuration wrAllOk wrAllOk sampleCaps3
          (PCsensorDevice.set_pedal_configuration sampleCaps3 sampleCleanState 0 sampleKbd2).2).2.1
      = true := by
  decide

/-- Claim C3 (amended): the load / set / save modification-flag lifecycle holds
on the Ikkegol driver: a successful load clears all flags, a successful set on
a valid index makes `has_modifications` true, and a successful save makes it
false again.  On the PCsensor driver, set marks the flag, but load leaves the
flags untouched (they are false only because construction initialises them so)
and save never clears them, so `has_modifications` stays true after an
error-free save. -/
theorem modification_flag_lifecycle :
    (∀ (rd : Nat → Except PedalError Configuration) (tmBuf : Except PedalError (List Nat))
        (caps : DeviceCapabilities) (st : DeviceState),
      (IkkegolDevice.load_configuration rd tmBuf caps st).1 = .ok () →
      has_modifications (IkkegolDevice.load_configuration rd tmBuf caps st).2 = false) ∧
    (∀ (caps : DeviceCapabilities) (st : DeviceState) (i : Nat) (c : Configuration),
      i < caps.pedal_count → i < st.modified_pedals.length →
      has_modifications (IkkegolDevice.set_pedal_configuration caps st i c).2 = true ∧
      has_modifications (PCsensorDevice.set_pedal_configuration caps st i c).2 = true) ∧
    (∀ (wr : Nat → Except PedalError Unit) (caps : DeviceCapabilities) (st : DeviceState),
      (IkkegolDevice.save_configuration wr caps st).1 = .ok () →
      has_modifications (IkkegolDevice.save_configuration wr caps st).2.1 = false) ∧
    (∀ (rd : Nat → Except PedalError (Configuration × TriggerMode))
        (caps : DeviceCapabilities) (st : DeviceState),
      (PCsensorDevice.load_configuration rd caps st).2.modified_pedals
        = st.modified_pedals) ∧
    (∀ (wr phw : Nat → Except PedalError Unit) (caps : DeviceCapabilities)
        (st : DeviceState),
      (PCsensorDevice.save_configuration wr phw caps st).2.1 = st) := by
  refine ⟨?_, ?_, ?_, ?_, ?_⟩
  · intro rd tmBuf caps st h
    unfold IkkegolDevice.load_configuration at h ⊢
    rcases hlr : IkkegolDevice.loadReads rd (List.range caps.pedal_count) st with ⟨r1, st2⟩
    rw [hlr] at h
    cases r1 with
    | error e => exact Except.noConfusion h
    | ok u =>
        cases u
        cases tmBuf with
        | error e => exact Except.noConfusion h
        | ok buffer => simp [has_modifications]
  · intro caps st i c hi hlen
    have hneg : ¬ caps.pedal_count ≤ i := by omega
    constructor
    · unfold IkkegolDevice.set_pedal_configuration
      rw [if_neg hneg]
      exact any_set_true _ _ hlen
    · unfold PCsensorDevice.set_pedal_configuration
      rw [if_neg hneg]
      exact any_set_true _ _ hlen
  · intro wr caps st h
    unfold IkkegolDevice.save_configuration at h ⊢
    rcases hsw : IkkegolDevice.saveWrites wr (dirtyIndices caps st) with ⟨r, tr⟩
    rw [hsw] at h
    cases r with
    | ok u => cases u; simp [has_modifications]
    | error e => exact Except.noConfusion h
  · intro rd caps st
    unfold PCsensorDevice.load_configuration
    exact pcsensor_loadReads_modified rd _ st
  · intro wr phw caps st
    unfold PCsensorDevice.save_configuration
    rcases PCsensorDevice.saveLoop wr phw caps [0, 1, 2] with ⟨r, tr⟩
    rfl

/-- Witness for C3 (amended): on a concrete Ikkegol session, a successful load
clears the flags and a successful set on pedal 0 raises `has_modifications`. -/
theorem modification_flag_lifecycle_witness :
    has_modifications
        (IkkegolDevice.load_configuration rdAllUnconfigured tmBufAllPress sampleCaps3
          sampleDirtyState).2 = false ∧
    has_modifications
        (IkkegolDevice.set_pedal_configuration sampleCaps3 sampleCleanState 0 sampleKbd2).2
      = true :=
  ⟨modification_flag_lifecycle.1 rdAllUnconfigured tmBufAllPress sampleCaps3
      sampleDirtyState (by decide),
   (modification_flag_lifecycle.2.1 sampleCaps3 sampleCleanState 0 sampleKbd2
      (by decide) (by decide)).1⟩

theorem from_u8_toNat (t : ConfigType) : ConfigType.from_u8 t.toNat = some t := by
  cases t <;> rfl

theorem media_from_u8_toNat (b : MediaButton) : MediaButton.from_u8 b.toNat = some b := by
  cases b <;> rfl

theorem game_from_u8_toNat (k : GameKey) : GameKey.from_u8 k.toNat = some k := by
  cases k <;> rfl

theorem ofBits_toBits (b : MouseButtons) : MouseButtons.ofBits b.toBits = b := by
  rcases b with ⟨l, r, m, bk, f⟩
  cases l <;> cases r <;> cases m <;> cases bk <;> cases f <;> decide

theorem toBits_ne_zero (b : MouseButtons) (h : b ≠ emptyButtons) : b.toBits ≠ 0 := by
  revert h
  rcases b with ⟨l, r, m, bk, f⟩
  cases l <;> cases r <;> cases m <;> cases bk <;> cases f <;> decide

theorem byteToI8_i8ToByte (x : Int) (h1 : -128 ≤ x) (h2 : x ≤ 127) :
    byteToI8 (i8ToByte x) = x := by
  unfold byteToI8 i8ToByte
  split_ifs with h <;> omega

theorem parseKeySlots_zeros (m : Nat) : parseKeySlots (zeros m) = [] := by
  induction m with
  | zero => rfl
  | succ n ih =>
      simp only [zeros, List.replicate_succ] at ih ⊢
      simp only [parseKeySlots, List.filter_cons] at ih ⊢
      simpa using ih

theorem parseKeySlots_round (keys : List String)
    (h : ∀ k ∈ keys, keySlotRoundTripsB k = true) (m : Nat) :
    parseKeySlots (keys.map encodeKeySlot ++ zeros m) = keys := by
  induction keys with
  | nil => simpa using parseKeySlots_zeros m
  | cons k rest ih =>
      have hk := h k (List.mem_cons_self k rest)
      unfold keySlotRoundTripsB at hk
      simp only [Bool.and_eq_true, bne_iff_ne, beq_iff_eq, ne_eq] at hk
      have ihr := ih (fun x hx => h x (List.mem_cons_of_mem k hx))
      simp only [parseKeySlots, List.map_cons, List.cons_append, List.filter_cons] at ihr ⊢
      rw [if_pos (by simpa using hk.1)]
      simp only [List.map_cons]
      rw [hk.2, ihr]

theorem kbdSlots_eq (keys : List String) (h : keys.length ≤ 6) :
    kbdSlots keys = keys.map encodeKeySlot ++ zeros (6 - keys.length) := by
  unfold kbdSlots
  rw [List.take_of_length_le h]
  simp

theorem kbdSlots_length (keys : List String) : (kbdSlots keys).length = 6 := by
  unfold kbdSlots
  simp only [List.length_append, List.length_map, List.length_take, zeros,
    List.length_replicate]
  omega

theorem list6_cases (l : List Nat) (h : l.length = 6) :
    ∃ a b c d e f, l = [a, b, c, d, e, f] := by
  rcases l with _ | ⟨a, _ | ⟨b, _ | ⟨c, _ | ⟨d, _ | ⟨e, _ | ⟨f, _ | ⟨g, rest⟩⟩⟩⟩⟩⟩⟩ <;>
    simp at h
  exact ⟨a, b, c, d, e, f, rfl⟩

theorem decode_zeros (m : Nat) : decode_from_protocol (zeros m) = [] := by
  cases m with
  | zero => rfl
  | succ n => simp [decode_from_protocol, zeros, List.replicate_succ]

theorem encodeForProtocolAux_eq (t : List Char) :
    ∀ acc : List Nat, (∀ ch ∈ t, charRoundTripsB ch = true) →
      acc.length + t.length ≤ 38 →
      encodeForProtocolAux t acc = acc ++ t.filterMap encode_char := by
  induction t with
  | nil => intro acc _ _; simp [encodeForProtocolAux]
  | cons ch rest ih =>
      intro acc h hlen
      have hch := h ch (List.mem_cons_self ch rest)
      unfold charRoundTripsB at hch
      cases hec : encode_char ch with
      | none => rw [hec] at hch; simp at hch
      | some c =>
          unfold encodeForProtocolAux
          rw [hec]
          simp only
          by_cases h38 : 38 ≤ (acc ++ [c]).length
          · have hrest : rest = [] := by
              simp only [List.length_append, List.length_cons, List.length_singleton,
                List.length_nil] at h38 hlen
              cases rest with
              | nil => rfl
              | cons x xs => simp at hlen; omega
            subst hrest
            rw [if_pos h38]
            simp [List.filterMap_cons, hec]
          · rw [if_neg h38]
            rw [ih (acc ++ [c]) (fun x hx => h x (List.mem_cons_of_mem ch hx))
              (by simp at h38 hlen ⊢; omega)]
            simp [List.filterMap_cons, hec]

theorem decode_filterMap (t : List Char) (h : ∀ ch ∈ t, charRoundTripsB ch = true)
    (m : Nat) :
    decode_from_protocol (t.filterMap encode_char ++ zeros m) = t := by
  induction t with
  | nil => simpa using decode_zeros m
  | cons ch rest ih =>
      have hch := h ch (List.mem_cons_self ch rest)
      unfold charRoundTripsB at hch
      cases hec : encode_char ch with
      | none => rw [hec] at hch; simp at hch
      | some c =>
          rw [hec] at hch
          simp only [Bool.and_eq_true, bne_iff_ne, beq_iff_eq, ne_eq] at hch
          simp only [List.filterMap_cons, hec, List.cons_append]
          unfold decode_from_protocol
          rw [if_neg hch.1, hch.2]
          rw [ih (fun x hx => h x (List.mem_cons_of_mem ch hx))]
          rfl

theorem encode_keyboard_packet (mode : KeyMode) (keys : List String) (mods : Nat)
    (trig : Trigger) :
    encode_config (.Keyboard ⟨mode, keys, mods, trig⟩) =
      ⟨40,
        (if keys.length > 1 then
          (if mode = .OneShot then ConfigType.KeyboardMultiOnce.toNat
            else ConfigType.KeyboardMulti.toNat)
        else
          (if mode = .OneShot then ConfigType.KeyboardOnce.toNat
            else ConfigType.Keyboard.toNat)),
        mods :: kbdSlots keys ++ zeros 31⟩ := rfl

theorem parse_config_keyboard (tb : ConfigType)
    (htb : tb = .Keyboard ∨ tb = .KeyboardOnce ∨ tb = .KeyboardMulti ∨
      tb = .KeyboardMultiOnce)
    (mods : Nat) (l : List Nat) (hl : l.length = 6) (tail : List Nat) :
    parse_config ⟨40, tb.toNat, mods :: l ++ tail⟩ =
      .ok (.Keyboard (KeyboardConfiguration.with_modifiers
        (if tb = .KeyboardOnce ∨ tb = .KeyboardMultiOnce then .OneShot else .Standard)
        (parseKeySlots l) (mods % 256))) := by
  obtain ⟨a, b, c, d, e, f, rfl⟩ := list6_cases l hl
  rcases htb with rfl | rfl | rfl | rfl <;> rfl

/-- Claim C1 (amended): for every configuration whose field values the packet
can represent — trigger `OnPress` (the packet does not carry the trigger), at
most 6 keyboard keys each surviving the keymap round trip, modifiers below
256, a non-empty mouse button set or in-range axes, text of at most 38
characters each surviving the keymap round trip — decoding the encoded packet
returns exactly the original configuration.  In particular keyboard decoding
recovers every encoded key slot, not only the first. -/
theorem parse_encode_roundtrip (c : Configuration) (h : Representable c) :
    parse_config (encode_config c) = .ok c := by
  cases c with
  | Unconfigured => rfl
  | Media m =>
      rcases m with ⟨btn, trig⟩
      obtain rfl : trig = .OnPress := h
      show parse_config ⟨40, ConfigType.Media.toNat, btn.toNat :: zeros 37⟩ = _
      simp [parse_config, ConfigPacket.get_config_type, from_u8_toNat,
        show ConfigPacket.parse_data ⟨40, ConfigType.Media.toNat, btn.toNat :: zeros 37⟩
          = .Media ⟨btn.toNat⟩ from rfl,
        media_from_u8_toNat, MediaConfiguration.new]
  | Gamepad g =>
      rcases g with ⟨btn, trig⟩
      obtain rfl : trig = .OnPress := h
      show parse_config ⟨40, ConfigType.Game.toNat, btn.toNat :: zeros 37⟩ = _
      simp [parse_config, ConfigPacket.get_config_type, from_u8_toNat,
        show ConfigPacket.parse_data ⟨40, ConfigType.Game.toNat, btn.toNat :: zeros 37⟩
          = .Game ⟨btn.toNat⟩ from rfl,
        game_from_u8_toNat, GamepadConfiguration.new]
  | Mouse m =>
      rcases m with ⟨mmode, trig⟩
      obtain ⟨htrig, hmode⟩ := h
      subst htrig
      cases mmode with
      | Buttons b =>
          have hb : b.toBits ≠ 0 := toBits_ne_zero b hmode
          show parse_config
              ⟨40, ConfigType.Mouse.toNat, [0, 0, b.toBits, 0, 0, 0] ++ zeros 32⟩ = _
          simp [parse_config, ConfigPacket.get_config_type, from_u8_toNat,
            show ConfigPacket.parse_data
                ⟨40, ConfigType.Mouse.toNat, 0 :: 0 :: b.toBits :: 0 :: 0 :: 0 :: zeros 32⟩
              = .Mouse ⟨[0, 0], b.toBits, 0, 0, 0⟩ from rfl,
            hb, ofBits_toBits, MouseConfiguration.buttons]
      | Axis x y w =>
          obtain ⟨hx1, hx2, hy1, hy2, hw1, hw2⟩ := hmode
          show parse_config
              ⟨40, ConfigType.Mouse.toNat,
                [0, 0, 0, i8ToByte x, i8ToByte y, i8ToByte w] ++ zeros 32⟩ = _
          simp [parse_config, ConfigPacket.get_config_type, from_u8_toNat,
            show ConfigPacket.parse_data
                ⟨40, ConfigType.Mouse.toNat,
                  0 :: 0 :: 0 :: i8ToByte x :: i8ToByte y :: i8ToByte w :: zeros 32⟩
              = .Mouse ⟨[0, 0], 0, byteToI8 (i8ToByte x), byteToI8 (i8ToByte y),
                  byteToI8 (i8ToByte w)⟩ from rfl,
            byteToI8_i8ToByte x hx1 hx2, byteToI8_i8ToByte y hy1 hy2,
            byteToI8_i8ToByte w hw1 hw2, MouseConfiguration.axis]
  | Text t =>
      rcases t with ⟨s, trig⟩
      obtain ⟨htrig, hlen, hch⟩ := h
      subst htrig
      have haux : encodeForProtocolAux s.data [] = s.data.filterMap encode_char := by
        simpa using encodeForProtocolAux_eq s.data [] hch (by simpa using hlen)
      have henc : TextConfiguration.encode_for_protocol ⟨s, .OnPress⟩
          = s.data.filterMap encode_char
            ++ zeros (38 - (s.data.filterMap encode_char).length) := by
        unfold TextConfiguration.encode_for_protocol
        rw [haux]
      have htake : (TextConfiguration.encode_for_protocol ⟨s, .OnPress⟩).take 38
          = TextConfiguration.encode_for_protocol ⟨s, .OnPress⟩ :=
        List.take_of_length_le (le_of_eq (encode_for_protocol_length _))
      have hdec : decode_from_protocol (TextConfiguration.encode_for_protocol ⟨s, .OnPress⟩)
          = s.data := by
        rw [henc]
        exact decode_filterMap s.data hch _
      show parse_config
          ⟨40, ConfigType.Text.toNat, TextConfiguration.encode_for_protocol ⟨s, .OnPress⟩⟩ = _
      simp [parse_config, ConfigPacket.get_config_type, from_u8_toNat,
        show ConfigPacket.parse_data
            ⟨40, ConfigType.Text.toNat, TextConfiguration.encode_for_protocol ⟨s, .OnPress⟩⟩
          = .Text ⟨(TextConfiguration.encode_for_protocol ⟨s, .OnPress⟩).take 38⟩ from rfl,
        htake, hdec, TextConfiguration.new]
  | Keyboard k =>
      rcases k with ⟨mode, keys, mods, trig⟩
      obtain ⟨htrig, hlen, hmods, hkeys⟩ := h
      subst htrig
      have h6 := kbdSlots_length keys
      have hslots := kbdSlots_eq keys hlen
      have hround : parseKeySlots (kbdSlots keys) = keys := by
        rw [hslots]
        exact parseKeySlots_round keys hkeys _
      rw [encode_keyboard_packet]
      by_cases hc : keys.length > 1
      · cases mode with
        | Standard =>
            rw [if_pos hc, if_neg (by decide : ¬ (KeyMode.Standard = KeyMode.OneShot))]
            rw [parse_config_keyboard .KeyboardMulti (by simp) mods (kbdSlots keys) h6
              (zeros 31)]
            rw [hround]
            simp [KeyboardConfiguration.with_modifiers, Nat.mod_eq_of_lt hmods]
        | OneShot =>
            rw [if_pos hc, if_pos rfl]
            rw [parse_config_keyboard .KeyboardMultiOnce (by simp) mods (kbdSlots keys) h6
              (zeros 31)]
            rw [hround]
            simp [KeyboardConfiguration.with_modifiers, Nat.mod_eq_of_lt hmods]
      · cases mode with
        | Standard =>
            rw [if_neg hc, if_neg (by decide : ¬ (KeyMode.Standard = KeyMode.OneShot))]
            rw [parse_config_keyboard .Keyboard (by simp) mods (kbdSlots keys) h6
              (zeros 31)]
            rw [hround]
            simp [KeyboardConfiguration.with_modifiers, Nat.mod_eq_of_lt hmods]
        | OneShot =>
            rw [if_neg hc, if_pos rfl]
            rw [parse_config_keyboard .KeyboardOnce (by simp) mods (kbdSlots keys) h6
              (zeros 31)]
            rw [hround]
            simp [KeyboardConfiguration.with_modifiers, Nat.mod_eq_of_lt hmods]

/-- Counterexample for C1: the round trip fails outside the representable
fragment — an empty mouse button set decodes as the zero axis configuration, a
non-`OnPress` trigger is not carried by the packet, an unmappable key name is
dropped, and an uppercase text character comes back lowercased; moreover a
two-key keyboard configuration round-trips in full, so the claimed
"first key slot only" decode asymmetry does not occur in this codec. -/
theorem parse_encode_roundtrip_counterexample :
    parse_config (encode_config (.Mouse (MouseConfiguration.buttons emptyButtons)))
        = .ok (.Mouse (MouseConfiguration.axis 0 0 0)) ∧
    Configuration.Mouse (MouseConfiguration.axis 0 0 0)
        ≠ .Mouse (MouseConfiguration.buttons emptyButtons) ∧
    parse_config (encode_config (.Media ⟨.Play, .OnRelease⟩))
        = .ok (.Media ⟨.Play, .OnPress⟩) ∧
    parse_config (encode_config
        (.Keyboard (KeyboardConfiguration.with_modifiers .Standard ["nosuchkey"] 0)))
      = .ok (.Keyboard (KeyboardConfiguration.with_modifiers .Standard [] 0)) ∧
    parse_config (encode_config (.Text (TextConfiguration.new "A")))
        = .ok (.Text (TextConfiguration.new "a")) ∧
    parse_config (encode_config sampleKbd2) = .ok sampleKbd2 := by
  decide

/-- Witness for C1 (amended): the two-key keyboard configuration is
representable and round-trips. -/
theorem parse_encode_roundtrip_witness :
    parse_config (encode_config sampleKbd2) = .ok sampleKbd2 :=
  parse_encode_roundtrip sampleKbd2 ⟨rfl, by decide, by decide, by decide⟩
